import Mathlib

/-!
Verification of the claims about `src/python/src/lib.rs` of the rbstar
repository: a pyo3 module shim exposing a no-op function `rb_function`,
an empty struct `RBStruct`, and a module initializer `_rbpy` that
registers both on the module it receives.

The pyo3 framework calls (`wrap_pyfunction!`, `add_function`,
`add_class`) are external to the repository; their success or failure is
therefore an input to the model, given by an outcome oracle
`RegOutcomes`.  The module is modelled by its observable registration
state (the list of registered symbols), and `_rbpy` additionally records
the trace of framework calls it makes, so that short-circuiting is
observable.  The empty body of `rb_function` is embedded in a small
statement language with a fuel-bounded big-step semantics, so that
"never panics" and "always terminates" are statements about an
execution, not about a Lean function that is total by construction.
-/

/-- A Python exception value raised by a failing pyo3 framework call.
Only its identity matters to the embedded code, so it is modelled by its
message. -/
structure PyErr where
  msg : String
deriving DecidableEq

/-- A symbol registered on a Python module: a callable (registered by
`add_function`) or a class (registered by `add_class`). -/
inductive PySymbol : Type
  | callable (name : String)
  | pyclass (name : String)
deriving DecidableEq

/-- The observable state of a pyo3 module object: the symbols registered
on it, in registration order. -/
structure PyModule where
  symbols : List PySymbol
deriving DecidableEq

/-- The three framework registration calls `_rbpy` can make, used to
record an execution trace. -/
inductive RegCall : Type
  | wrapFunctionCall
  | addFunctionCall
  | addClassCall
deriving DecidableEq

/-- Oracle for the outcomes of the three pyo3 framework calls: `none`
means the call succeeds, `some e` means it fails with error `e`. -/
structure RegOutcomes where
  wrapErr : Option PyErr
  addFunctionErr : Option PyErr
  addClassErr : Option PyErr
deriving DecidableEq

/-- Model of `wrap_pyfunction!(rb_function, m)`: on success it yields
the wrapped callable, identified by its Python name. -/
def wrap_pyfunction (o : RegOutcomes) : Except PyErr String :=
  match o.wrapErr with
  | some e => Except.error e
  | none => Except.ok "rb_function"

/-- Model of `m.add_function(f)`: on success it appends the callable to
the module's symbols and changes nothing else. -/
def add_function (o : RegOutcomes) (m : PyModule) (fname : String) :
    Except PyErr PyModule :=
  match o.addFunctionErr with
  | some e => Except.error e
  | none => Except.ok ⟨m.symbols ++ [PySymbol.callable fname]⟩

/-- Model of `m.add_class::<C>()`: on success it appends the class to
the module's symbols and changes nothing else. -/
def add_class (o : RegOutcomes) (m : PyModule) (cname : String) :
    Except PyErr PyModule :=
  match o.addClassErr with
  | some e => Except.error e
  | none => Except.ok ⟨m.symbols ++ [PySymbol.pyclass cname]⟩

/-- The observable outcome of running the module initializer: the final
module state, the trace of framework calls made, and the returned
`PyResult` value. -/
structure RbpyRun where
  module : PyModule
  trace : List RegCall
  result : Except PyErr Unit

/-- Shallow embedding of the module initializer

```
fn _rbpy(m: &Bound<PyModule>) -> PyResult<()> {
    m.add_function(wrap_pyfunction!(rb_function, m)?)?;
    m.add_class::<RBStruct>()?;
    Ok(())
}
```

The `?` operators short-circuit: a failing call returns its error at
once and the later calls are not made. -/
def _rbpy (o : RegOutcomes) (m : PyModule) : RbpyRun :=
  match wrap_pyfunction o with
  | Except.error e => ⟨m, [RegCall.wrapFunctionCall], Except.error e⟩
  | Except.ok f =>
    match add_function o m f with
    | Except.error e =>
        ⟨m, [RegCall.wrapFunctionCall, RegCall.addFunctionCall], Except.error e⟩
    | Except.ok m1 =>
      match add_class o m1 "RBStruct" with
      | Except.error e =>
          ⟨m1, [RegCall.wrapFunctionCall, RegCall.addFunctionCall,
                RegCall.addClassCall], Except.error e⟩
      | Except.ok m2 =>
          ⟨m2, [RegCall.wrapFunctionCall, RegCall.addFunctionCall,
                RegCall.addClassCall], Except.ok ()⟩

/-- Shallow embedding of `struct RBStruct {}`: a structure with no
fields. -/
structure RBStruct

/-- Statements of the fragment of Rust needed to embed the function
bodies in `lib.rs`, together with the constructs (`fail`, `loop`) whose
absence from those bodies the claims are about. -/
inductive Stmt : Type
  | skip
  | fail (msg : String)
  | seq (a b : Stmt)
  | loop (body : Stmt)
deriving DecidableEq

/-- Outcome of executing a statement over an ambient program state `σ`:
normal termination with the final state and the returned unit value, or
a panic. -/
inductive Outcome (σ : Type) : Type
  | normal (s : σ) (v : Unit)
  | panicked (msg : String)
deriving DecidableEq

/-- Fuel-bounded big-step execution; `none` means the fuel ran out
before the statement finished. -/
def exec {σ : Type} : Nat → Stmt → σ → Option (Outcome σ)
  | 0, _, _ => none
  | _ + 1, Stmt.skip, s => some (Outcome.normal s ())
  | _ + 1, Stmt.fail msg, _ => some (Outcome.panicked msg)
  | n + 1, Stmt.seq a b, s =>
    match exec n a s with
    | some (Outcome.normal s1 _) => exec n b s1
    | some (Outcome.panicked msg) => some (Outcome.panicked msg)
    | none => none
  | n + 1, Stmt.loop b, s =>
    match exec n b s with
    | some (Outcome.normal s1 _) => exec n (Stmt.loop b) s1
    | some (Outcome.panicked msg) => some (Outcome.panicked msg)
    | none => none

/-- A statement is loop-free when it contains no `loop`. -/
def loopFree : Stmt → Bool
  | Stmt.skip => true
  | Stmt.fail _ => true
  | Stmt.seq a b => loopFree a && loopFree b
  | Stmt.loop _ => false

/-- Syntactic size, a sufficient fuel bound for loop-free code. -/
def stmtSize : Stmt → Nat
  | Stmt.skip => 1
  | Stmt.fail _ => 1
  | Stmt.seq a b => stmtSize a + stmtSize b + 1
  | Stmt.loop b => stmtSize b + 1

/-- The body of `fn rb_function() {}` is empty: `skip`. -/
def rb_function_body : Stmt := Stmt.skip

/-- Shallow embedding of `rb_function`, run in an arbitrary ambient
program state with fuel sufficient for its own size. -/
def rb_function {σ : Type} (s : σ) : Option (Outcome σ) :=
  exec (stmtSize rb_function_body) rb_function_body s

/-- The unit value returned by a normally finished execution, if any. -/
def Outcome.ret {σ : Type} : Option (Outcome σ) → Option Unit
  | some (Outcome.normal _ v) => some v
  | _ => none

/-- Every statement has positive size. -/
theorem stmtSize_pos (t : Stmt) : 1 ≤ stmtSize t := by
  cases t <;> simp [stmtSize]

/-- Loop-free statements finish within fuel equal to their size. -/
theorem exec_total_of_loopFree {σ : Type} (t : Stmt) :
    ∀ (fuel : Nat) (s : σ), loopFree t = true → stmtSize t ≤ fuel →
      ∃ o, exec fuel t s = some o := by
  induction t with
  | skip =>
    intro fuel s _ hfuel
    obtain ⟨n, rfl⟩ : ∃ n, fuel = n + 1 :=
      ⟨fuel - 1, by simp [stmtSize] at hfuel; omega⟩
    exact ⟨Outcome.normal s (), rfl⟩
  | fail msg =>
    intro fuel s _ hfuel
    obtain ⟨n, rfl⟩ : ∃ n, fuel = n + 1 :=
      ⟨fuel - 1, by simp [stmtSize] at hfuel; omega⟩
    exact ⟨Outcome.panicked msg, rfl⟩
  | seq a b iha ihb =>
    intro fuel s hlf hfuel
    simp [loopFree, Bool.and_eq_true] at hlf
    simp [stmtSize] at hfuel
    have ha := stmtSize_pos a
    have hb := stmtSize_pos b
    obtain ⟨n, rfl⟩ : ∃ n, fuel = n + 1 := ⟨fuel - 1, by omega⟩
    obtain ⟨o, ho⟩ := iha n s hlf.1 (by omega)
    cases o with
    | normal s1 v =>
      obtain ⟨o2, ho2⟩ := ihb n s1 hlf.2 (by omega)
      exact ⟨o2, by simp [exec, ho, ho2]⟩
    | panicked msg =>
      exact ⟨Outcome.panicked msg, by simp [exec, ho]⟩
  | loop b ih =>
    intro fuel s hlf _
    simp [loopFree] at hlf

/-- C1: when every registration call succeeds, `_rbpy` appends exactly
two symbols to the module it receives — the callable `rb_function` and
the class `RBStruct` — adds nothing else, and returns `Ok(())`. -/
theorem rbpy_registers_two_symbols (o : RegOutcomes) (m : PyModule)
    (hw : o.wrapErr = none) (hf : o.addFunctionErr = none)
    (hc : o.addClassErr = none) :
    (_rbpy o m).module.symbols
        = m.symbols ++ [PySymbol.callable "rb_function",
                        PySymbol.pyclass "RBStruct"] ∧
    (_rbpy o m).result = Except.ok () := by
  simp [_rbpy, wrap_pyfunction, add_function, add_class, hw, hf, hc]

/-- Witness for C1 at the empty module with all calls succeeding. -/
theorem rbpy_registers_two_symbols_witness :
    (_rbpy ⟨none, none, none⟩ ⟨[]⟩).module.symbols
        = [PySymbol.callable "rb_function", PySymbol.pyclass "RBStruct"] ∧
    (_rbpy ⟨none, none, none⟩ ⟨[]⟩).result = Except.ok () := by
  have h := rbpy_registers_two_symbols ⟨none, none, none⟩ ⟨[]⟩ rfl rfl rfl
  simpa using h

/-- C2: `rb_function` takes no arguments, performs no computation and
returns no value: its return behavior is the constant unit function. -/
theorem rb_function_constant_unit (σ : Type) :
    (fun s : σ => Outcome.ret (rb_function s)) = fun _ => some () := by
  funext s
  rfl

/-- C3: `_rbpy` fails only by propagating an error of one of the three
framework registration calls, and returns `Ok(())` whenever none of
them fails. -/
theorem rbpy_error_propagation (o : RegOutcomes) (m : PyModule) :
    (∀ e : PyErr, (_rbpy o m).result = Except.error e →
      o.wrapErr = some e ∨ o.addFunctionErr = some e ∨
        o.addClassErr = some e) ∧
    (o.wrapErr = none → o.addFunctionErr = none → o.addClassErr = none →
      (_rbpy o m).result = Except.ok ()) := by
  obtain ⟨w, f, c⟩ := o
  cases w <;> cases f <;> cases c <;>
    simp [_rbpy, wrap_pyfunction, add_function, add_class]

/-- Witness for C3: with every call succeeding the initializer returns
`Ok(())`. -/
theorem rbpy_error_propagation_witness :
    (_rbpy ⟨none, none, none⟩ ⟨[]⟩).result = Except.ok () :=
  (rbpy_error_propagation ⟨none, none, none⟩ ⟨[]⟩).2 rfl rfl rfl

/-- C4: `RBStruct` has no fields: any two values are equal, the only
inhabitant is `RBStruct.mk`, and every predicate on it is trivially
preserved. -/
theorem rbstruct_unique (a b : RBStruct) :
    a = b ∧ a = RBStruct.mk ∧ ∀ P : RBStruct → Prop, P a → P b := by
  cases a
  cases b
  exact ⟨rfl, rfl, fun P h => h⟩

/-- Witness for C4, evaluating the predicate clause at a concrete
predicate. -/
theorem rbstruct_unique_witness :
    RBStruct.mk = RBStruct.mk :=
  (rbstruct_unique RBStruct.mk RBStruct.mk).2.2
    (fun x => x = RBStruct.mk) rfl

/-- C5: invoking `rb_function` leaves the ambient program state
unchanged: started in state `s`, it ends normally in state `s`. -/
theorem rb_function_frame (σ : Type) (s : σ) :
    rb_function s = some (Outcome.normal s ()) := rfl

/-- C6: `rb_function` never fails: every invocation finishes normally,
and no invocation panics. -/
theorem rb_function_no_failure (σ : Type) (s : σ) :
    (∃ t, rb_function s = some (Outcome.normal t ())) ∧
      ∀ msg, rb_function s ≠ some (Outcome.panicked msg) := by
  refine ⟨⟨s, rfl⟩, ?_⟩
  intro msg h
  simp [rb_function, rb_function_body, stmtSize, exec] at h

/-- Witness for C6 in a concrete state. -/
theorem rb_function_no_failure_witness :
    ∃ t, rb_function (0 : Nat) = some (Outcome.normal t ()) :=
  (rb_function_no_failure Nat 0).1

/-- C7: registration short-circuits: a failure of `wrap_pyfunction` or
`add_function` propagates at once and `add_class` is never called, and
`add_class` is called only after both earlier calls succeeded, in
registration order. -/
theorem rbpy_short_circuit (o : RegOutcomes) (m : PyModule) :
    (∀ e, o.wrapErr = some e →
        (_rbpy o m).result = Except.error e ∧
        RegCall.addClassCall ∉ (_rbpy o m).trace) ∧
    (∀ e, o.wrapErr = none → o.addFunctionErr = some e →
        (_rbpy o m).result = Except.error e ∧
        RegCall.addClassCall ∉ (_rbpy o m).trace) ∧
    (RegCall.addClassCall ∈ (_rbpy o m).trace →
        o.wrapErr = none ∧ o.addFunctionErr = none ∧
        (_rbpy o m).trace = [RegCall.wrapFunctionCall,
          RegCall.addFunctionCall, RegCall.addClassCall]) := by
  obtain ⟨w, f, c⟩ := o
  cases w <;> cases f <;> cases c <;>
    simp [_rbpy, wrap_pyfunction, add_function, add_class]

/-- Witness for C7: a failing `wrap_pyfunction` propagates its error and
`add_class` is never called. -/
theorem rbpy_short_circuit_witness :
    (_rbpy ⟨some ⟨"w"⟩, none, none⟩ ⟨[]⟩).result = Except.error ⟨"w"⟩ ∧
    RegCall.addClassCall ∉ (_rbpy ⟨some ⟨"w"⟩, none, none⟩ ⟨[]⟩).trace :=
  (rbpy_short_circuit ⟨some ⟨"w"⟩, none, none⟩ ⟨[]⟩).1 ⟨"w"⟩ rfl

/-- C8: both embedded functions terminate on every input: the body of
`rb_function` is loop-free and finishes within fuel equal to its size,
and `_rbpy` yields a result on every oracle and module. -/
theorem rb_function_rbpy_total :
    loopFree rb_function_body = true ∧
    (∀ (σ : Type) (s : σ) (fuel : Nat), stmtSize rb_function_body ≤ fuel →
      ∃ o, exec fuel rb_function_body s = some o) ∧
    (∀ (o : RegOutcomes) (m : PyModule), ∃ r, _rbpy o m = r) := by
  refine ⟨rfl, ?_, fun o m => ⟨_rbpy o m, rfl⟩⟩
  intro σ s fuel hfuel
  exact exec_total_of_loopFree rb_function_body fuel s rfl hfuel

/-- Witness for C8 with one unit of fuel in a concrete state. -/
theorem rb_function_rbpy_total_witness :
    stmtSize rb_function_body ≤ 1 ∧
      ∃ o, exec 1 rb_function_body (0 : Nat) = some o :=
  ⟨by decide, rb_function_rbpy_total.2.1 Nat 0 1 (by decide)⟩

/-- C9: `rb_function` and `_rbpy` are deterministic: equal inputs give
equal results, `rb_function` always returns the unit value, and the
`PyResult` returned by `_rbpy` depends only on the registration
outcomes, not on the module it receives. -/
theorem rbpy_deterministic :
    (∀ (σ : Type) (s t : σ), s = t → rb_function s = rb_function t) ∧
    (∀ (o1 o2 : RegOutcomes) (m1 m2 : PyModule), o1 = o2 → m1 = m2 →
        _rbpy o1 m1 = _rbpy o2 m2) ∧
    (∀ (σ : Type) (s : σ), Outcome.ret (rb_function s) = some ()) ∧
    (∀ (o : RegOutcomes) (m1 m2 : PyModule),
        (_rbpy o m1).result = (_rbpy o m2).result) := by
  refine ⟨?_, ?_, fun σ s => rfl, ?_⟩
  · intro σ s t h
    rw [h]
  · intro o1 o2 m1 m2 ho hm
    rw [ho, hm]
  · intro o m1 m2
    obtain ⟨w, f, c⟩ := o
    cases w <;> cases f <;> cases c <;>
      simp [_rbpy, wrap_pyfunction, add_function, add_class]

/-- Witness for C9 at concrete equal inputs. -/
theorem rbpy_deterministic_witness :
    _rbpy ⟨none, none, none⟩ ⟨[]⟩ = _rbpy ⟨none, none, none⟩ ⟨[]⟩ :=
  rbpy_deterministic.2.1 ⟨none, none, none⟩ ⟨none, none, none⟩
    ⟨[]⟩ ⟨[]⟩ rfl rfl
